import Mathlib

/-!
Verification development for the POLI QA system (React QA overlay).

The definitions below are a shallow embedding of the repository's TypeScript
source:
* the data model from the type definitions module (`TestItem`, `BugReport`,
  `TestSession`, `TestChecklist`, `QAState`);
* the state operations of the `QAProvider` context module
  (`mergeChecklists`, `updateTestStatus`, `startTestSession`,
  `updateBugStatus`, `removeTestItem`, `reportBug`, `deleteBug`,
  `deleteSession`, and the provider's initial-state computation);
* the localStorage persistence layer (`loadQAState`, `saveQAState`,
  `clearOldSessions`);
* the CLI router parser's `routePathToScreenName`.

Modelling conventions: JavaScript timestamps (`Date.now()`) are threaded as
an explicit `now : Nat` parameter; optional fields (`notes?`, `testedAt?`)
are `Option`; JavaScript truthiness tests on those fields are modelled
exactly (`undefined`, the empty string and the number `0` are falsy);
`Map.set` overwrite semantics are modelled by looking keys up in the
reversed insertion list.
-/

namespace POLI

/-- Test item status from the type definitions module. -/
inductive TestStatus where
  | not_started
  | passed
  | failed
  | skipped
  deriving DecidableEq, Repr

/-- Bug status from the type definitions module (`open` is a Lean keyword,
rendered `open_`). -/
inductive BugStatus where
  | open_
  | in_progress
  | fixed
  | wont_fix
  deriving DecidableEq, Repr

/-- A checklist test item.  `category` is one of four strings in the source;
modelled as a plain string. -/
structure TestItem where
  id : String
  screen : String
  category : String
  description : String
  status : TestStatus
  notes : Option String
  testedAt : Option Nat
  deriving DecidableEq, Repr

/-- A bug report.  The `sessionMetadata` record of the source is an opaque
bag the operations never inspect and is omitted. -/
structure BugReport where
  id : String
  title : String
  description : String
  severity : String
  status : BugStatus
  screen : String
  stepsToReproduce : List String
  expectedBehavior : String
  actualBehavior : String
  screenshot : Option String
  consoleErrors : Option String
  reportedAt : Nat
  reportedBy : String
  fixedAt : Option Nat
  fixedIn : Option String
  deriving DecidableEq, Repr

/-- A test session. -/
structure TestSession where
  id : String
  name : String
  startedAt : Nat
  completedAt : Option Nat
  totalTests : Nat
  passedTests : Nat
  failedTests : Nat
  skippedTests : Nat
  bugsFound : List String
  notes : Option String
  tester : String
  deriving DecidableEq, Repr

/-- A per-screen checklist. -/
structure TestChecklist where
  screen : String
  items : List TestItem
  deriving DecidableEq, Repr

/-- The root aggregate state. -/
@[ext]
structure QAState where
  isOpen : Bool
  currentSession : Option TestSession
  testSessions : List TestSession
  checklists : List TestChecklist
  bugs : List BugReport
  deriving DecidableEq, Repr

/-- The provider's `DEFAULT_STATE` constant. -/
def DEFAULT_STATE : QAState :=
  { isOpen := false
    currentSession := none
    testSessions := []
    checklists := []
    bugs := [] }

/-- All items across all checklists, in order (`checklists.flatMap(c => c.items)`). -/
def allItems (checklists : List TestChecklist) : List TestItem :=
  checklists.flatMap (·.items)

/-- JavaScript truthiness of an optional string: `undefined` and `""` are falsy. -/
def truthyStr : Option String → Bool
  | none => false
  | some s => s ≠ ""

/-- JavaScript truthiness of an optional number: `undefined` and `0` are falsy. -/
def truthyNum : Option Nat → Bool
  | none => false
  | some n => n ≠ 0

/-- The guard of `mergeChecklists`' saved-results collection:
`item.status !== 'not_started' || item.notes || item.testedAt`. -/
def hasSavedHistory (item : TestItem) : Bool :=
  item.status ≠ TestStatus.not_started || truthyStr item.notes || truthyNum item.testedAt

/-- The record value stored in `mergeChecklists`' `savedResults` map. -/
structure SavedResult where
  status : TestStatus
  notes : Option String
  testedAt : Option Nat
  deriving DecidableEq, Repr

/-- The `savedResults` map of `mergeChecklists`, as its insertion sequence:
every saved item passing the history guard contributes one `(id, record)`
entry, in iteration order. -/
def savedResultsOf (savedChecklists : List TestChecklist) : List (String × SavedResult) :=
  (allItems savedChecklists).filterMap fun item =>
    if hasSavedHistory item then
      some (item.id, { status := item.status, notes := item.notes, testedAt := item.testedAt })
    else none

/-- `Map.get` after repeated `Map.set`: the most recent insertion wins, so we
look the key up in the reversed insertion sequence. -/
def lookupSaved (entries : List (String × SavedResult)) (id : String) : Option SavedResult :=
  entries.reverse.lookup id

/-- The spread `{ ...item, ...saved }`: the saved record's three keys are
always present (possibly `undefined`) and overwrite the item's. -/
def applySaved (item : TestItem) (saved : SavedResult) : TestItem :=
  { item with status := saved.status, notes := saved.notes, testedAt := saved.testedAt }

/-- The provider's `mergeChecklists`: map the supplied default checklists,
replacing each item's result fields by its saved history when one exists. -/
def mergeChecklists (savedChecklists defaultChecklists : List TestChecklist) :
    List TestChecklist :=
  let savedResults := savedResultsOf savedChecklists
  defaultChecklists.map fun checklist =>
    { checklist with
      items := checklist.items.map fun item =>
        match lookupSaved savedResults item.id with
        | some saved => applySaved item saved
        | none => item }

/-- `generateChecklistFingerprint`: all item ids, sorted, comma-joined. -/
def generateChecklistFingerprint (checklists : List TestChecklist) : String :=
  String.intercalate ","
    (((checklists.flatMap fun c => c.items.map (·.id)).mergeSort fun a b => a ≤ b))

/-- The provider's initial-state computation (the `useState` initializer of
`QAProvider`): adopt a loaded state only when it has a non-empty checklist
collection, merging when the fingerprint changed, always forcing the panel
closed; otherwise seed the default state with the supplied checklists. -/
def initQAState (loaded : Option QAState) (savedFingerprint : Option String)
    (defaultChecklists : List TestChecklist) : QAState :=
  let newFingerprint := generateChecklistFingerprint defaultChecklists
  match loaded with
  | some l =>
    if l.checklists.length > 0 then
      if savedFingerprint ≠ some newFingerprint then
        { l with
          checklists := mergeChecklists l.checklists defaultChecklists
          isOpen := false }
      else { l with isOpen := false }
    else { DEFAULT_STATE with checklists := defaultChecklists }
  | none => { DEFAULT_STATE with checklists := defaultChecklists }

/-- `updateTestStatus(testId, status, notes?)` at time `now`: rewrite the
matching item and, when a session is active, recompute its four counters
from the full updated item set. -/
def updateTestStatus (now : Nat) (testId : String) (status : TestStatus)
    (notes : Option String) (s : QAState) : QAState :=
  let updatedChecklists := s.checklists.map fun checklist =>
    { checklist with
      items := checklist.items.map fun item =>
        if item.id = testId then
          { item with status := status, notes := notes, testedAt := some now }
        else item }
  let updatedSession :=
    match s.currentSession with
    | some sess =>
      let allTests := allItems updatedChecklists
      some { sess with
        totalTests := allTests.length
        passedTests := (allTests.filter fun t => t.status = TestStatus.passed).length
        failedTests := (allTests.filter fun t => t.status = TestStatus.failed).length
        skippedTests := (allTests.filter fun t => t.status = TestStatus.skipped).length }
    | none => none
  { s with checklists := updatedChecklists, currentSession := updatedSession }

/-- `removeTestItem(testId)`: drop the item from every checklist. -/
def removeTestItem (testId : String) (s : QAState) : QAState :=
  { s with
    checklists := s.checklists.map fun c =>
      { c with items := c.items.filter fun item => item.id ≠ testId } }

/-- The caller-supplied part of a bug report (`Omit<BugReport, 'id' | 'reportedAt'>`). -/
structure BugInput where
  title : String
  description : String
  severity : String
  status : BugStatus
  screen : String
  stepsToReproduce : List String
  expectedBehavior : String
  actualBehavior : String
  screenshot : Option String
  consoleErrors : Option String
  reportedBy : String
  fixedAt : Option Nat
  fixedIn : Option String
  deriving DecidableEq, Repr

/-- The fresh bug built by `reportBug`: id `bug_${Date.now()}`, stamped `reportedAt`. -/
def mkBug (now : Nat) (input : BugInput) : BugReport :=
  { id := "bug_" ++ toString now
    title := input.title
    description := input.description
    severity := input.severity
    status := input.status
    screen := input.screen
    stepsToReproduce := input.stepsToReproduce
    expectedBehavior := input.expectedBehavior
    actualBehavior := input.actualBehavior
    screenshot := input.screenshot
    consoleErrors := input.consoleErrors
    reportedAt := now
    reportedBy := input.reportedBy
    fixedAt := input.fixedAt
    fixedIn := input.fixedIn }

/-- `reportBug(bug)` at time `now`: append the fresh bug and, when a session
is active, append its id to the session's `bugsFound`. -/
def reportBug (now : Nat) (input : BugInput) (s : QAState) : QAState :=
  let newBug := mkBug now input
  { s with
    bugs := s.bugs ++ [newBug]
    currentSession := s.currentSession.map fun sess =>
      { sess with bugsFound := sess.bugsFound ++ [newBug.id] } }

/-- `updateBugStatus(bugId, status)` at time `now`: set the status on the
matching bug, stamping `fixedAt := now` whenever the new status is `fixed`
(and keeping the old `fixedAt` otherwise). -/
def updateBugStatus (now : Nat) (bugId : String) (status : BugStatus) (s : QAState) : QAState :=
  { s with
    bugs := s.bugs.map fun bug =>
      if bug.id = bugId then
        { bug with
          status := status
          fixedAt := if status = BugStatus.fixed then some now else bug.fixedAt }
      else bug }

/-- `deleteBug(bugId)`: drop the bug and purge its id from the active
session's `bugsFound` (no session: leave `null`). -/
def deleteBug (bugId : String) (s : QAState) : QAState :=
  { s with
    bugs := s.bugs.filter fun bug => bug.id ≠ bugId
    currentSession := s.currentSession.map fun sess =>
      { sess with bugsFound := sess.bugsFound.filter fun id => id ≠ bugId } }

/-- `startTestSession(name, tester)` at time `now`: reset every item, then
install a fresh current session over the reset counts. -/
def startTestSession (now : Nat) (name tester : String) (s : QAState) : QAState :=
  let resetChecklists := s.checklists.map fun checklist =>
    { checklist with
      items := checklist.items.map fun item =>
        { item with status := TestStatus.not_started, notes := none, testedAt := none } }
  let allTests := allItems resetChecklists
  let newSession : TestSession :=
    { id := "session_" ++ toString now
      name := name
      startedAt := now
      completedAt := none
      totalTests := allTests.length
      passedTests := 0
      failedTests := 0
      skippedTests := 0
      bugsFound := []
      notes := none
      tester := tester }
  { s with checklists := resetChecklists, currentSession := some newSession }

/-- `completeTestSession(notes?)` at time `now`. -/
def completeTestSession (now : Nat) (notes : Option String) (s : QAState) : QAState :=
  match s.currentSession with
  | none => s
  | some sess =>
    { s with
      currentSession := none
      testSessions := s.testSessions ++ [{ sess with completedAt := some now, notes := notes }] }

/-- `deleteSession(sessionId)`: drop the historical session with that id. -/
def deleteSession (sessionId : String) (s : QAState) : QAState :=
  { s with testSessions := s.testSessions.filter fun sess => sess.id ≠ sessionId }

/-! ## Persistence layer (`qaStorage`) -/

/-- A JSON value, as produced by `JSON.parse`. -/
inductive JsonVal where
  | null
  | bool (b : Bool)
  | num (n : Int)
  | str (s : String)
  | arr (elems : List JsonVal)
  | obj (fields : List (String × JsonVal))

/-- JavaScript's `typeof v === 'object'`: true for objects, arrays and `null`. -/
def typeofIsObject : JsonVal → Bool
  | JsonVal.null => true
  | JsonVal.arr _ => true
  | JsonVal.obj _ => true
  | _ => false

/-- JavaScript property access `v[k]` on a parsed JSON value, `undefined`
modelled as `none`.  `JSON.parse` keeps the last of duplicate keys, so the
lookup scans the reversed field list.  Access on `null` throws and is
handled at the call site. -/
def jsGetField (v : JsonVal) (k : String) : Option JsonVal :=
  match v with
  | JsonVal.obj fields => fields.reverse.lookup k
  | _ => none

/-- `typeof x === 'boolean'` on a possibly-`undefined` value. -/
def isBoolField : Option JsonVal → Bool
  | some (JsonVal.bool _) => true
  | _ => false

/-- `Array.isArray(x)` on a possibly-`undefined` value. -/
def isArrayField : Option JsonVal → Bool
  | some (JsonVal.arr _) => true
  | _ => false

/-- `loadQAState`, over the abstract outcome of `localStorage.getItem` +
`JSON.parse`: `none` is an absent (or empty, hence falsy) blob, `some none`
a blob on which `JSON.parse` throws, `some (some v)` a blob parsing to `v`.
A parsed `null` passes the `typeof` test but property access on it throws;
the surrounding try/catch turns that into `null` as well. -/
def loadQAState (stored : Option (Option JsonVal)) : Option JsonVal :=
  match stored with
  | none => none
  | some none => none
  | some (some parsed) =>
    if typeofIsObject parsed then
      match parsed with
      | JsonVal.null => none
      | _ =>
        if isBoolField (jsGetField parsed "isOpen")
            && isArrayField (jsGetField parsed "testSessions")
            && isArrayField (jsGetField parsed "checklists")
            && isArrayField (jsGetField parsed "bugs") then
          some parsed
        else none
    else none

/-- Modelled from the spec: the structural check the load contract describes
("`isOpen` boolean present, and `testSessions`/`checklists`/`bugs` are each
a sequence", on an object).  Stated independently of `loadQAState` to compare
the code against the spec's words. -/
def specValidShape : JsonVal → Bool
  | JsonVal.obj fields =>
    isBoolField (fields.reverse.lookup "isOpen")
      && isArrayField (fields.reverse.lookup "testSessions")
      && isArrayField (fields.reverse.lookup "checklists")
      && isArrayField (fields.reverse.lookup "bugs")
  | _ => false

/-- Descending-by-`startedAt` sort of `clearOldSessions`
(comparator `b.startedAt - a.startedAt`; JavaScript's sort is stable). -/
def sortSessionsDesc (sessions : List TestSession) : List TestSession :=
  sessions.mergeSort fun a b => b.startedAt ≤ a.startedAt

/-- `clearOldSessions`: keep the 10 most recently started sessions. -/
def clearOldSessions (state : QAState) : QAState :=
  { state with testSessions := (sortSessionsDesc state.testSessions).take 10 }

/-- The state value `saveQAState` writes to storage: the state itself, or —
when the first write hits the quota — the trimmed state written on retry. -/
def saveQAState (state : QAState) (quotaExceeded : Bool) : QAState :=
  if quotaExceeded then clearOldSessions state else state

/-! ## Router parser: screen-name derivation -/

/-- JavaScript regex word character `\w` = `[A-Za-z0-9_]`. -/
def isWordChar (c : Char) : Bool :=
  c.isAlphanum || c = '_'

/-- `.replace(/^\//, '')`: drop one leading slash. -/
def stripLeadingSlash : List Char → List Char
  | '/' :: rest => rest
  | l => l

/-- `.replace(/\/:[\w]+/g, '')`: remove every maximal `/:word` segment,
scanning left to right as the regex engine does. -/
def stripDynSegments : List Char → List Char
  | [] => []
  | '/' :: ':' :: c :: rest =>
    if isWordChar c then stripDynSegments (rest.dropWhile isWordChar)
    else '/' :: stripDynSegments (':' :: c :: rest)
  | '/' :: rest => '/' :: stripDynSegments rest
  | c :: rest => c :: stripDynSegments rest
termination_by l => l.length
decreasing_by
  · have := (List.dropWhile_sublist (l := rest) isWordChar).length_le
    simp only [List.length_cons]
    omega
  · simp only [List.length_cons]
    omega
  · simp only [List.length_cons]
    omega
  · simp only [List.length_cons]
    omega

/-- The two character replacements of the derivation: every slash and every
hyphen becomes an underscore (the slash pass introduces no hyphens, so one
combined pass is equivalent to the source's two successive passes). -/
def replaceSeps (c : Char) : Char :=
  if c = '/' then '_' else if c = '-' then '_' else c

/-- The `name` value computed by `routePathToScreenName` before its two
final checks: strip the leading slash, remove dynamic segments, replace
separators with underscores, uppercase. -/
def screenNameCore (routePath : String) : List Char :=
  ((stripDynSegments (stripLeadingSlash routePath.data)).map replaceSeps).map Char.toUpper

/-- `routePathToScreenName`: the transformed name; empty becomes `HOME`; an
original path containing `:` gets a `_DETAIL` suffix. -/
def routePathToScreenName (routePath : String) : String :=
  if screenNameCore routePath = [] then "HOME"
  else if routePath.data.contains ':' then String.mk (screenNameCore routePath) ++ "_DETAIL"
  else String.mk (screenNameCore routePath)

/-! ## Sample data used by witnesses and counterexamples -/

/-- A concrete test item with the given result fields. -/
def sampleItem (id : String) (status : TestStatus) (notes : Option String)
    (testedAt : Option Nat) : TestItem :=
  { id := id
    screen := "S"
    category := "UI"
    description := "desc"
    status := status
    notes := notes
    testedAt := testedAt }

/-- A concrete bug report with the given status and fix timestamp. -/
def sampleBug (id : String) (status : BugStatus) (fixedAt : Option Nat) : BugReport :=
  { id := id
    title := "t"
    description := "d"
    severity := "low"
    status := status
    screen := "S"
    stepsToReproduce := []
    expectedBehavior := "e"
    actualBehavior := "a"
    screenshot := none
    consoleErrors := none
    reportedAt := 0
    reportedBy := "r"
    fixedAt := fixedAt
    fixedIn := none }

/-- A concrete session with the given id, start time and passed counter. -/
def mkSession (id : String) (startedAt passed : Nat) : TestSession :=
  { id := id
    name := "run"
    startedAt := startedAt
    completedAt := none
    totalTests := 0
    passedTests := passed
    failedTests := 0
    skippedTests := 0
    bugsFound := []
    notes := none
    tester := "alice" }

/-- A concrete caller-supplied bug report body. -/
def sampleInput : BugInput :=
  { title := "t"
    description := "d"
    severity := "high"
    status := BugStatus.open_
    screen := "S"
    stepsToReproduce := []
    expectedBehavior := "e"
    actualBehavior := "a"
    screenshot := none
    consoleErrors := none
    reportedBy := "r"
    fixedAt := none
    fixedIn := none }

/-- The number of items with the given status across all checklists. -/
def countStatus (checklists : List TestChecklist) (st : TestStatus) : Nat :=
  ((allItems checklists).filter fun t => t.status = st).length

/-- The active session's counters agree with the actual item counts. -/
def countersConsistent (s : QAState) : Prop :=
  ∀ sess, s.currentSession = some sess →
    sess.totalTests = (allItems s.checklists).length ∧
    sess.passedTests = countStatus s.checklists TestStatus.passed ∧
    sess.failedTests = countStatus s.checklists TestStatus.failed ∧
    sess.skippedTests = countStatus s.checklists TestStatus.skipped

/-- One `updateTestStatus` call, as data. -/
structure TestCall where
  now : Nat
  testId : String
  status : TestStatus
  notes : Option String

/-- A sequence of `updateTestStatus` calls, applied in order. -/
def applyCalls (calls : List TestCall) (s : QAState) : QAState :=
  calls.foldl (fun st c => updateTestStatus c.now c.testId c.status c.notes st) s

/-- The test id occurs on no item of any checklist. -/
def testIdAbsent (testId : String) (s : QAState) : Prop :=
  ∀ c ∈ s.checklists, ∀ it ∈ c.items, it.id ≠ testId

/-- The bug id occurs neither in the bug collection nor in the active
session's `bugsFound`. -/
def bugIdAbsent (bugId : String) (s : QAState) : Prop :=
  (∀ b ∈ s.bugs, b.id ≠ bugId) ∧
  match s.currentSession with
  | none => True
  | some sess => bugId ∉ sess.bugsFound

/-- The session id occurs in no historical session. -/
def sessionIdAbsent (sessionId : String) (s : QAState) : Prop :=
  ∀ sess ∈ s.testSessions, sess.id ≠ sessionId

/-- A concrete saved checklist collection with one tested item. -/
def c1SavedSample : List TestChecklist :=
  [{ screen := "S", items := [sampleItem "a" TestStatus.passed (some "ok") (some 5)] }]

/-- A concrete freshly supplied checklist collection: the saved id plus one
new id. -/
def c1NewSample : List TestChecklist :=
  [{ screen := "S",
     items := [sampleItem "a" TestStatus.not_started none none,
               sampleItem "b" TestStatus.not_started none none] }]

/-! ## Helper lemmas -/

/-- Positional pairing of a mapped list with the original: each pair is
`(f x, x)`. -/
theorem mem_zip_map_left {α : Type _} (f : α → α) (l : List α) :
    ∀ p ∈ (l.map f).zip l, p.1 = f p.2 := by
  induction l with
  | nil => simp
  | cons a l ih =>
    intro p hp
    simp only [List.map_cons, List.zip_cons_cons, List.mem_cons] at hp
    rcases hp with rfl | hp
    · rfl
    · exact ih p hp

/-- Rewriting every checklist's items with an item map preserves the total
item count. -/
theorem length_allItems_mapItems (f : TestItem → TestItem) (cs : List TestChecklist) :
    (allItems (cs.map fun c => { c with items := c.items.map f })).length
      = (allItems cs).length := by
  induction cs with
  | nil => rfl
  | cons c cs ih =>
    simp only [allItems, List.map_cons, List.flatMap_cons, List.length_append,
      List.length_map] at *
    omega

/-! ## Claim C3 -/

/-- C3: after `startTestSession(name, tester)` every item in every checklist
has status `not_started` with notes and `testedAt` cleared, and the new
current session has zero passed/failed/skipped counters, `totalTests` equal
to the total number of items across all checklists, an empty `bugsFound`
list, and the given name and tester. -/
theorem startTestSession_spec (now : Nat) (name tester : String) (s : QAState) :
    (∀ c ∈ (startTestSession now name tester s).checklists, ∀ it ∈ c.items,
        it.status = TestStatus.not_started ∧ it.notes = none ∧ it.testedAt = none) ∧
    ∃ sess, (startTestSession now name tester s).currentSession = some sess ∧
      sess.passedTests = 0 ∧ sess.failedTests = 0 ∧ sess.skippedTests = 0 ∧
      sess.totalTests = (allItems s.checklists).length ∧
      sess.bugsFound = [] ∧ sess.name = name ∧ sess.tester = tester := by
  constructor
  · intro c hc it hit
    simp only [startTestSession, List.mem_map] at hc
    obtain ⟨c₀, _, rfl⟩ := hc
    simp only [List.mem_map] at hit
    obtain ⟨it₀, _, rfl⟩ := hit
    exact ⟨rfl, rfl, rfl⟩
  · exact ⟨_, rfl, rfl, rfl, rfl, length_allItems_mapItems _ _, rfl, rfl, rfl⟩

/-! ## Claim C2 -/

/-- `updateTestStatus` keeps the session slot's occupancy. -/
theorem updateTestStatus_isSome (now : Nat) (testId : String) (status : TestStatus)
    (notes : Option String) (s : QAState) :
    (updateTestStatus now testId status notes s).currentSession.isSome
      = s.currentSession.isSome := by
  cases h : s.currentSession <;> simp [updateTestStatus, h]

/-- A single `updateTestStatus` call on a state with an active session leaves
the counters consistent (they are recomputed from scratch). -/
theorem updateTestStatus_consistent (now : Nat) (testId : String) (status : TestStatus)
    (notes : Option String) (s : QAState) (h : s.currentSession.isSome) :
    countersConsistent (updateTestStatus now testId status notes s) := by
  obtain ⟨sess, hsess⟩ := Option.isSome_iff_exists.mp h
  intro sess' hsess'
  simp only [updateTestStatus, hsess, Option.some.injEq] at hsess'
  subst hsess'
  exact ⟨rfl, rfl, rfl, rfl⟩

/-- A call sequence keeps the session slot's occupancy. -/
theorem applyCalls_isSome (calls : List TestCall) (s : QAState) :
    (applyCalls calls s).currentSession.isSome = s.currentSession.isSome := by
  induction calls generalizing s with
  | nil => rfl
  | cons c calls ih =>
    show (applyCalls calls (updateTestStatus c.now c.testId c.status c.notes s)).currentSession.isSome = _
    rw [ih, updateTestStatus_isSome]

/-- C2: starting from a state with an active session, after each call of any
sequence of `updateTestStatus` calls the current session's `totalTests`
equals the number of items across all checklists, and the
passed/failed/skipped counters equal the respective status counts. -/
theorem updateTestStatus_counters_invariant (s : QAState) (h : s.currentSession.isSome)
    (calls : List TestCall) (n : Nat) (hn : n < calls.length) :
    (applyCalls (calls.take (n + 1)) s).currentSession.isSome = true ∧
    countersConsistent (applyCalls (calls.take (n + 1)) s) := by
  refine ⟨by rw [applyCalls_isSome]; exact h, ?_⟩
  have htake : calls.take (n + 1) = calls.take n ++ [calls.get ⟨n, hn⟩] := by
    rw [List.take_succ]
    simp [List.getElem?_eq_getElem hn]
  rw [htake]
  have happ : applyCalls (calls.take n ++ [calls.get ⟨n, hn⟩]) s
      = updateTestStatus (calls.get ⟨n, hn⟩).now (calls.get ⟨n, hn⟩).testId
          (calls.get ⟨n, hn⟩).status (calls.get ⟨n, hn⟩).notes (applyCalls (calls.take n) s) := by
    simp only [applyCalls, List.foldl_append, List.foldl_cons, List.foldl_nil]
  rw [happ]
  apply updateTestStatus_consistent
  rw [applyCalls_isSome]
  exact h

/-- Witness for C2 at a concrete state and call sequence. -/
theorem updateTestStatus_counters_invariant_witness :
    (applyCalls ([⟨7, "a", TestStatus.passed, none⟩].take (0 + 1))
      { DEFAULT_STATE with
        currentSession := some (mkSession "session_1" 1 0)
        checklists :=
          [{ screen := "S", items := [sampleItem "a" TestStatus.not_started none none] }] }
      ).currentSession.isSome = true ∧
    countersConsistent (applyCalls ([⟨7, "a", TestStatus.passed, none⟩].take (0 + 1))
      { DEFAULT_STATE with
        currentSession := some (mkSession "session_1" 1 0)
        checklists :=
          [{ screen := "S", items := [sampleItem "a" TestStatus.not_started none none] }] }) :=
  updateTestStatus_counters_invariant _ (by decide) _ 0 (by decide)

/-! ## Claim C4 -/

/-- C4 counterexample: a repeated `updateBugStatus(_, fixed)` call on an
already-fixed bug restamps its `fixedAt` to the new current time, so
`fixedAt` is not left unchanged as the claim states. -/
theorem updateBugStatus_refix_counterexample :
    ((updateBugStatus 10 "b" BugStatus.fixed
        { DEFAULT_STATE with bugs := [sampleBug "b" BugStatus.fixed (some 5)] }).bugs.map
      fun b => b.fixedAt) = [some 10]
    ∧ (sampleBug "b" BugStatus.fixed (some 5)).status = BugStatus.fixed
    ∧ some (10 : Nat) ≠ some 5 := by decide

/-- C4 amended: `updateBugStatus(bugId, status)` sets the matching bug's
status and stamps its `fixedAt` to the current time exactly when the new
status is `fixed` — regardless of the bug's prior status — leaving `fixedAt`
unchanged when the new status is not `fixed`; all other bugs and all other
state fields are untouched. -/
theorem updateBugStatus_spec (now : Nat) (bugId : String) (status : BugStatus) (s : QAState) :
    (updateBugStatus now bugId status s).isOpen = s.isOpen ∧
    (updateBugStatus now bugId status s).currentSession = s.currentSession ∧
    (updateBugStatus now bugId status s).testSessions = s.testSessions ∧
    (updateBugStatus now bugId status s).checklists = s.checklists ∧
    (updateBugStatus now bugId status s).bugs.length = s.bugs.length ∧
    ∀ p ∈ ((updateBugStatus now bugId status s).bugs).zip s.bugs,
      (p.2.id = bugId →
        p.1.status = status ∧
        (status = BugStatus.fixed → p.1.fixedAt = some now) ∧
        (status ≠ BugStatus.fixed → p.1.fixedAt = p.2.fixedAt) ∧
        p.1.id = p.2.id ∧ p.1.title = p.2.title ∧ p.1.description = p.2.description ∧
        p.1.severity = p.2.severity ∧ p.1.screen = p.2.screen ∧
        p.1.reportedAt = p.2.reportedAt ∧ p.1.reportedBy = p.2.reportedBy) ∧
      (p.2.id ≠ bugId → p.1 = p.2) := by
  refine ⟨rfl, rfl, rfl, rfl, List.length_map _ _, ?_⟩
  intro p hp
  have hfp := mem_zip_map_left
    (fun bug : BugReport =>
      if bug.id = bugId then
        { bug with
          status := status
          fixedAt := if status = BugStatus.fixed then some now else bug.fixedAt }
      else bug) s.bugs p hp
  constructor
  · intro hid
    simp only [hfp]
    rw [if_pos hid]
    refine ⟨rfl, ?_, ?_, rfl, rfl, rfl, rfl, rfl, rfl, rfl⟩
    · intro hfix
      rw [if_pos hfix]
    · intro hfix
      rw [if_neg hfix]
  · intro hid
    simp only [hfp]
    rw [if_neg hid]

/-! ## Claim C6 -/

/-- Removing an absent test id is an exact no-op. -/
theorem removeTestItem_absent (testId : String) (s : QAState) (h : testIdAbsent testId s) :
    removeTestItem testId s = s := by
  have h1 : ∀ c ∈ s.checklists,
      ({ c with items := c.items.filter fun it => it.id ≠ testId } : TestChecklist) = id c := by
    intro c hc
    have h2 : c.items.filter (fun it => it.id ≠ testId) = c.items :=
      List.filter_eq_self.mpr fun it hit => by simpa using h c hc it hit
    show ({ c with items := c.items.filter fun it => it.id ≠ testId } : TestChecklist) = c
    rw [h2]
  show { s with checklists := _ } = s
  rw [List.map_congr_left h1, List.map_id]

/-- Updating an absent bug id is an exact no-op. -/
theorem updateBugStatus_absent (now : Nat) (bugId : String) (status : BugStatus)
    (s : QAState) (h : ∀ b ∈ s.bugs, b.id ≠ bugId) :
    updateBugStatus now bugId status s = s := by
  have h1 : ∀ b ∈ s.bugs,
      (if b.id = bugId then
        ({ b with
          status := status
          fixedAt := if status = BugStatus.fixed then some now else b.fixedAt } : BugReport)
      else b) = id b := by
    intro b hb
    rw [if_neg (h b hb)]
    rfl
  show { s with bugs := _ } = s
  rw [List.map_congr_left h1, List.map_id]

/-- Deleting an absent bug id is an exact no-op. -/
theorem deleteBug_absent (bugId : String) (s : QAState) (h : bugIdAbsent bugId s) :
    deleteBug bugId s = s := by
  obtain ⟨h1, h2⟩ := h
  have hb : s.bugs.filter (fun bug => bug.id ≠ bugId) = s.bugs :=
    List.filter_eq_self.mpr fun b hbm => by simpa using h1 b hbm
  cases hcs : s.currentSession with
  | none =>
    show { s with bugs := _, currentSession := s.currentSession.map _ } = s
    rw [hb, hcs, Option.map_none']
    rw [← hcs]
  | some sess =>
    rw [hcs] at h2
    have hf : sess.bugsFound.filter (fun id => id ≠ bugId) = sess.bugsFound :=
      List.filter_eq_self.mpr fun x hx => by
        simp only [decide_eq_true_eq]
        intro hxe
        exact h2 (hxe ▸ hx)
    show { s with bugs := _, currentSession := s.currentSession.map _ } = s
    rw [hb, hcs, Option.map_some', hf, ← hcs]

/-- Deleting an absent session id is an exact no-op. -/
theorem deleteSession_absent (sessionId : String) (s : QAState)
    (h : sessionIdAbsent sessionId s) :
    deleteSession sessionId s = s := by
  have h1 : s.testSessions.filter (fun sess => sess.id ≠ sessionId) = s.testSessions :=
    List.filter_eq_self.mpr fun t ht => by simpa using h t ht
  show { s with testSessions := _ } = s
  rw [h1]

/-- `updateTestStatus` on an absent test id leaves the checklists unchanged. -/
theorem updateTestStatus_absent_checklists (now : Nat) (testId : String) (status : TestStatus)
    (notes : Option String) (s : QAState) (h : testIdAbsent testId s) :
    (updateTestStatus now testId status notes s).checklists = s.checklists := by
  have h1 : ∀ c ∈ s.checklists,
      ({ c with
        items := c.items.map fun item =>
          if item.id = testId then
            { item with status := status, notes := notes, testedAt := some now }
          else item } : TestChecklist) = id c := by
    intro c hc
    have h2 : (c.items.map fun item =>
        if item.id = testId then
          { item with status := status, notes := notes, testedAt := some now }
        else item) = c.items := by
      have h3 : ∀ it ∈ c.items,
          (if it.id = testId then
            ({ it with status := status, notes := notes, testedAt := some now } : TestItem)
          else it) = id it := by
        intro it hit
        rw [if_neg (h c hc it hit)]
        rfl
      rw [List.map_congr_left h3, List.map_id]
    show ({ c with items := _ } : TestChecklist) = c
    rw [h2]
  show (⟨s.isOpen, _, s.testSessions, (s.checklists.map _), s.bugs⟩ : QAState).checklists
      = s.checklists
  show s.checklists.map _ = s.checklists
  rw [List.map_congr_left h1, List.map_id]

/-- `updateTestStatus` on an absent test id in a consistent state (no active
session, or counters already matching) is an exact no-op. -/
theorem updateTestStatus_absent_noop (now : Nat) (testId : String) (status : TestStatus)
    (notes : Option String) (s : QAState) (h : testIdAbsent testId s)
    (hcons : countersConsistent s) :
    updateTestStatus now testId status notes s = s := by
  have hck := updateTestStatus_absent_checklists now testId status notes s h
  obtain ⟨o, cs, ts, cls, bg⟩ := s
  simp only [updateTestStatus] at hck
  apply QAState.ext
  · rfl
  · cases cs with
    | none => rfl
    | some sess =>
      obtain ⟨h1, h2, h3, h4⟩ := hcons sess rfl
      simp only [countStatus] at h2 h3 h4
      simp only [updateTestStatus]
      rw [hck, ← h1, ← h2, ← h3, ← h4]
  · rfl
  · exact hck
  · rfl

/-- `removeTestItem` is idempotent (for every id, present or not). -/
theorem removeTestItem_idem (testId : String) (s : QAState) :
    removeTestItem testId (removeTestItem testId s) = removeTestItem testId s := by
  apply removeTestItem_absent
  intro c hc it hit
  simp only [removeTestItem, List.mem_map] at hc
  obtain ⟨c₀, _, rfl⟩ := hc
  simp only [List.mem_filter] at hit
  simpa using hit.2

/-- `deleteBug` is idempotent (for every id, present or not). -/
theorem deleteBug_idem (bugId : String) (s : QAState) :
    deleteBug bugId (deleteBug bugId s) = deleteBug bugId s := by
  apply deleteBug_absent
  constructor
  · intro b hb
    simp only [deleteBug, List.mem_filter] at hb
    simpa using hb.2
  · cases hcs : s.currentSession with
    | none => simp [deleteBug, hcs]
    | some sess => simp [deleteBug, hcs, List.mem_filter]

/-- `deleteSession` is idempotent (for every id, present or not). -/
theorem deleteSession_idem (sessionId : String) (s : QAState) :
    deleteSession sessionId (deleteSession sessionId s) = deleteSession sessionId s := by
  apply deleteSession_absent
  intro t ht
  simp only [deleteSession, List.mem_filter] at ht
  simpa using ht.2

/-- An absent test id stays absent after `updateTestStatus` (the checklists
are unchanged). -/
theorem testIdAbsent_after_update (now : Nat) (testId : String) (status : TestStatus)
    (notes : Option String) (s : QAState) (h : testIdAbsent testId s) :
    testIdAbsent testId (updateTestStatus now testId status notes s) := by
  intro c hc
  rw [updateTestStatus_absent_checklists now testId status notes s h] at hc
  exact h c hc

/-- After any `updateTestStatus` call the resulting state has consistent
counters (recomputed when a session is active, vacuous otherwise). -/
theorem updateTestStatus_consistent_always (now : Nat) (testId : String) (status : TestStatus)
    (notes : Option String) (s : QAState) :
    countersConsistent (updateTestStatus now testId status notes s) := by
  cases hcs : s.currentSession with
  | none =>
    intro sess hs
    simp [updateTestStatus, hcs] at hs
  | some sess =>
    apply updateTestStatus_consistent
    rw [hcs]
    rfl

/-- C6 counterexample: on a state whose active session carries stale
counters, `updateTestStatus` with an id that occurs nowhere still rewrites
the session's counters, so the operation is not value-preserving for
unknown ids. -/
theorem unknownId_noop_counterexample :
    testIdAbsent "x" { DEFAULT_STATE with currentSession := some (mkSession "s1" 0 5) } ∧
    updateTestStatus 0 "x" TestStatus.passed none
        { DEFAULT_STATE with currentSession := some (mkSession "s1" 0 5) }
      ≠ { DEFAULT_STATE with currentSession := some (mkSession "s1" 0 5) } := by
  refine ⟨?_, by decide⟩
  intro c hc
  simp [DEFAULT_STATE] at hc

/-- C6 amended: for ids not present in the state, `removeTestItem`,
`updateBugStatus`, `deleteBug` and `deleteSession` are exact no-ops and
never throw, and all five id-keyed operations are idempotent;
`updateTestStatus` with an unknown id leaves the checklists and all other
fields except the current session unchanged, and is an exact no-op exactly
when no session is active or the active session's counters already equal
the recomputed counts (otherwise it only rewrites those counters). -/
theorem idKeyedOps_unknown_id_spec (now now2 : Nat) (testId bugId sessionId : String)
    (status : TestStatus) (bstatus : BugStatus) (notes : Option String) (s : QAState) :
    (testIdAbsent testId s →
      (updateTestStatus now testId status notes s).checklists = s.checklists ∧
      (updateTestStatus now testId status notes s).isOpen = s.isOpen ∧
      (updateTestStatus now testId status notes s).testSessions = s.testSessions ∧
      (updateTestStatus now testId status notes s).bugs = s.bugs ∧
      (countersConsistent s → updateTestStatus now testId status notes s = s) ∧
      updateTestStatus now2 testId status notes (updateTestStatus now testId status notes s)
        = updateTestStatus now testId status notes s ∧
      removeTestItem testId s = s) ∧
    (bugIdAbsent bugId s →
      updateBugStatus now bugId bstatus s = s ∧
      updateBugStatus now2 bugId bstatus (updateBugStatus now bugId bstatus s)
        = updateBugStatus now bugId bstatus s ∧
      deleteBug bugId s = s) ∧
    (sessionIdAbsent sessionId s →
      deleteSession sessionId s = s) ∧
    removeTestItem testId (removeTestItem testId s) = removeTestItem testId s ∧
    deleteBug bugId (deleteBug bugId s) = deleteBug bugId s ∧
    deleteSession sessionId (deleteSession sessionId s) = deleteSession sessionId s := by
  refine ⟨?_, ?_, ?_, removeTestItem_idem testId s, deleteBug_idem bugId s,
    deleteSession_idem sessionId s⟩
  · intro h
    refine ⟨updateTestStatus_absent_checklists now testId status notes s h, rfl, rfl, rfl,
      updateTestStatus_absent_noop now testId status notes s h, ?_, removeTestItem_absent testId s h⟩
    exact updateTestStatus_absent_noop now2 testId status notes _
      (testIdAbsent_after_update now testId status notes s h)
      (updateTestStatus_consistent_always now testId status notes s)
  · intro h
    have h1 := updateBugStatus_absent now bugId bstatus s h.1
    refine ⟨h1, ?_, deleteBug_absent bugId s h⟩
    rw [h1]
    exact updateBugStatus_absent now2 bugId bstatus s h.1
  · intro h
    exact deleteSession_absent sessionId s h

/-- Witness for the amended C6 at a concrete state and concrete absent ids. -/
theorem idKeyedOps_unknown_id_spec_witness :
    (testIdAbsent "x" DEFAULT_STATE →
      (updateTestStatus 3 "x" TestStatus.passed none DEFAULT_STATE).checklists
        = DEFAULT_STATE.checklists ∧
      (updateTestStatus 3 "x" TestStatus.passed none DEFAULT_STATE).isOpen
        = DEFAULT_STATE.isOpen ∧
      (updateTestStatus 3 "x" TestStatus.passed none DEFAULT_STATE).testSessions
        = DEFAULT_STATE.testSessions ∧
      (updateTestStatus 3 "x" TestStatus.passed none DEFAULT_STATE).bugs
        = DEFAULT_STATE.bugs ∧
      (countersConsistent DEFAULT_STATE →
        updateTestStatus 3 "x" TestStatus.passed none DEFAULT_STATE = DEFAULT_STATE) ∧
      updateTestStatus 4 "x" TestStatus.passed none
          (updateTestStatus 3 "x" TestStatus.passed none DEFAULT_STATE)
        = updateTestStatus 3 "x" TestStatus.passed none DEFAULT_STATE ∧
      removeTestItem "x" DEFAULT_STATE = DEFAULT_STATE) ∧
    (bugIdAbsent "y" DEFAULT_STATE →
      updateBugStatus 3 "y" BugStatus.fixed DEFAULT_STATE = DEFAULT_STATE ∧
      updateBugStatus 4 "y" BugStatus.fixed (updateBugStatus 3 "y" BugStatus.fixed DEFAULT_STATE)
        = updateBugStatus 3 "y" BugStatus.fixed DEFAULT_STATE ∧
      deleteBug "y" DEFAULT_STATE = DEFAULT_STATE) ∧
    (sessionIdAbsent "z" DEFAULT_STATE →
      deleteSession "z" DEFAULT_STATE = DEFAULT_STATE) ∧
    removeTestItem "x" (removeTestItem "x" DEFAULT_STATE) = removeTestItem "x" DEFAULT_STATE ∧
    deleteBug "y" (deleteBug "y" DEFAULT_STATE) = deleteBug "y" DEFAULT_STATE ∧
    deleteSession "z" (deleteSession "z" DEFAULT_STATE) = deleteSession "z" DEFAULT_STATE :=
  idKeyedOps_unknown_id_spec 3 4 "x" "y" "z" TestStatus.passed BugStatus.fixed none DEFAULT_STATE

/-! ## Claim C7 -/

/-- C7 counterexample: if the state already contains a bug whose id collides
with the id assigned to the new bug, `reportBug` followed by `deleteBug` on
that id removes the pre-existing bug as well, so the bug collection is not
restored. -/
theorem reportBug_deleteBug_counterexample :
    ({ DEFAULT_STATE with bugs := [sampleBug "bug_7" BugStatus.open_ none] } : QAState).currentSession
      = none ∧
    (deleteBug (mkBug 7 sampleInput).id
        (reportBug 7 sampleInput
          { DEFAULT_STATE with bugs := [sampleBug "bug_7" BugStatus.open_ none] })).bugs
      = [] ∧
    ({ DEFAULT_STATE with bugs := [sampleBug "bug_7" BugStatus.open_ none] } : QAState).bugs
      ≠ [] := by decide

/-- C7 amended: with no active session, `reportBug` followed by `deleteBug`
on the id assigned to the new bug restores the bug collection, provided no
pre-existing bug already carries that assigned id. -/
theorem reportBug_deleteBug_roundtrip (now : Nat) (input : BugInput) (s : QAState)
    (hsess : s.currentSession = none)
    (hfresh : ∀ b ∈ s.bugs, b.id ≠ (mkBug now input).id) :
    (deleteBug (mkBug now input).id (reportBug now input s)).bugs = s.bugs := by
  have h1 : s.bugs.filter (fun bug => bug.id ≠ (mkBug now input).id) = s.bugs :=
    List.filter_eq_self.mpr fun b hb => by simpa using hfresh b hb
  have h2 : [mkBug now input].filter (fun bug => bug.id ≠ (mkBug now input).id) = [] := by
    simp
  show ((s.bugs ++ [mkBug now input]).filter fun bug => bug.id ≠ (mkBug now input).id) = s.bugs
  rw [List.filter_append, h1, h2, List.append_nil]

/-- Witness for the amended C7 at a concrete state. -/
theorem reportBug_deleteBug_roundtrip_witness :
    (deleteBug (mkBug 7 sampleInput).id (reportBug 7 sampleInput DEFAULT_STATE)).bugs
      = DEFAULT_STATE.bugs :=
  reportBug_deleteBug_roundtrip 7 sampleInput DEFAULT_STATE rfl (by decide)

/-! ## Claim C5 -/

/-- `Char.ofNat` on a valid codepoint round-trips through `toNat`. -/
theorem toNat_ofNat_valid (n : Nat) (h : n.isValidChar) : (Char.ofNat n).toNat = n := by
  rw [Char.ofNat, dif_pos h]
  simp [Char.ofNatAux, Char.toNat, UInt32.toNat]

/-- `Char.toUpper` is idempotent. -/
theorem toUpper_toUpper (c : Char) : c.toUpper.toUpper = c.toUpper := by
  unfold Char.toUpper
  by_cases h : c.toNat ≥ 97 ∧ c.toNat ≤ 122
  · rw [if_pos h]
    have hv : (c.toNat - 32).isValidChar := Or.inl (by omega)
    rw [toNat_ofNat_valid _ hv]
    have hn : ¬(c.toNat - 32 ≥ 97 ∧ c.toNat - 32 ≤ 122) := by omega
    simp only [hn, if_neg, ite_false]
  · simp only [if_neg h]

/-- `Char.toUpper` cannot produce a character outside the uppercase Latin
range unless it was the input. -/
theorem toUpper_ne (c x : Char) (hx : ¬(65 ≤ x.toNat ∧ x.toNat ≤ 90)) (hcx : c ≠ x) :
    c.toUpper ≠ x := by
  unfold Char.toUpper
  by_cases h : c.toNat ≥ 97 ∧ c.toNat ≤ 122
  · rw [if_pos h]
    intro heq
    have h2 : (Char.ofNat (c.toNat - 32)).toNat = c.toNat - 32 :=
      toNat_ofNat_valid _ (Or.inl (by omega))
    rw [heq] at h2
    exact hx (by omega)
  · rw [if_neg h]
    exact hcx

/-- The separator replacement never produces a slash or a hyphen. -/
theorem replaceSeps_ne (d : Char) : replaceSeps d ≠ '/' ∧ replaceSeps d ≠ '-' := by
  unfold replaceSeps
  by_cases h1 : d = '/'
  · rw [if_pos h1]
    exact ⟨by decide, by decide⟩
  · rw [if_neg h1]
    by_cases h2 : d = '-'
    · rw [if_pos h2]
      exact ⟨by decide, by decide⟩
    · rw [if_neg h2]
      exact ⟨h1, h2⟩

/-- The separator replacement is the identity away from slash and hyphen. -/
theorem replaceSeps_eq_self (c : Char) (h1 : c ≠ '/') (h2 : c ≠ '-') : replaceSeps c = c := by
  unfold replaceSeps
  rw [if_neg h1, if_neg h2]

/-- Dropping the leading slash is the identity on slash-free text. -/
theorem stripLeadingSlash_eq_self (l : List Char) (h : ∀ c ∈ l, c ≠ '/') :
    stripLeadingSlash l = l := by
  cases l with
  | nil => rfl
  | cons a t =>
    have ha := h a (List.mem_cons_self a t)
    unfold stripLeadingSlash
    split
    · rename_i heq
      rw [List.cons.injEq] at heq
      exact absurd heq.1 ha
    · rfl

/-- Dynamic-segment removal is the identity on slash-free text. -/
theorem stripDynSegments_eq_self : ∀ l : List Char, (∀ c ∈ l, c ≠ '/') →
    stripDynSegments l = l := by
  intro l
  induction l using stripDynSegments.induct
  case case1 => intro _; simp [stripDynSegments]
  case case2 => intro h; exact absurd rfl (h '/' (List.mem_cons_self _ _))
  case case3 => intro h; exact absurd rfl (h '/' (List.mem_cons_self _ _))
  case case4 => intro h; exact absurd rfl (h '/' (List.mem_cons_self _ _))
  case case5 =>
    rename_i c rest h1 h2 ih
    intro h
    rw [stripDynSegments.eq_def]
    split
    · rename_i heq
      exact absurd heq (by simp)
    · rename_i c2 r2 heq
      rw [List.cons.injEq] at heq
      exact absurd heq.1 (h c (List.mem_cons_self _ _))
    · rename_i r2 heq
      rw [List.cons.injEq] at heq
      exact absurd heq.1 (h c (List.mem_cons_self _ _))
    · rename_i c2 r2 heq
      rw [List.cons.injEq] at heq
      obtain ⟨rfl, rfl⟩ := heq
      rw [ih fun x hx => h x (List.mem_cons_of_mem _ hx)]

/-- Every character of the derived name core is slash-free, hyphen-free and
uppercase-fixed. -/
theorem nameChar_props (p : String) :
    ∀ c ∈ screenNameCore p, c ≠ '/' ∧ c ≠ '-' ∧ c.toUpper = c := by
  intro c hc
  simp only [screenNameCore, List.mem_map] at hc
  obtain ⟨d, hd, rfl⟩ := hc
  obtain ⟨e, _, rfl⟩ := hd
  exact ⟨toUpper_ne _ _ (by decide) (replaceSeps_ne e).1,
    toUpper_ne _ _ (by decide) (replaceSeps_ne e).2, toUpper_toUpper _⟩

/-- Every character of a derived screen name is slash-free, hyphen-free and
uppercase-fixed. -/
theorem routePath_output_chars (p : String) :
    ∀ c ∈ (routePathToScreenName p).data, c ≠ '/' ∧ c ≠ '-' ∧ c.toUpper = c := by
  intro c hc
  unfold routePathToScreenName at hc
  split at hc
  · have hc4 : c = 'H' ∨ c = 'O' ∨ c = 'M' ∨ c = 'E' := by simpa using hc
    rcases hc4 with rfl | rfl | rfl | rfl <;> exact ⟨by decide, by decide, by decide⟩
  · split at hc
    · have hc2 : c ∈ screenNameCore p ++ "_DETAIL".data := hc
      rcases List.mem_append.mp hc2 with hc3 | hc3
      · exact nameChar_props p c hc3
      · have hc4 : c = '_' ∨ c = 'D' ∨ c = 'E' ∨ c = 'T' ∨ c = 'A' ∨ c = 'I' ∨ c = 'L' := by
          simpa using hc3
        rcases hc4 with rfl | rfl | rfl | rfl | rfl | rfl | rfl <;>
          exact ⟨by decide, by decide, by decide⟩
    · exact nameChar_props p c hc

/-- A derived screen name is never empty. -/
theorem routePath_output_ne_nil (p : String) : (routePathToScreenName p).data ≠ [] := by
  unfold routePathToScreenName
  split
  · decide
  · rename_i hname
    split
    · show (screenNameCore p ++ "_DETAIL".data) ≠ []
      simp
    · exact hname

/-- On a string of slash-free, hyphen-free, uppercase-fixed characters the
derivation's name core is the identity. -/
theorem screenNameCore_eq_self (y : String)
    (hchars : ∀ c ∈ y.data, c ≠ '/' ∧ c ≠ '-' ∧ c.toUpper = c) :
    screenNameCore y = y.data := by
  have hslash : ∀ c ∈ y.data, c ≠ '/' := fun c hc => (hchars c hc).1
  have h1 : stripLeadingSlash y.data = y.data := stripLeadingSlash_eq_self _ hslash
  have h2 : stripDynSegments y.data = y.data := stripDynSegments_eq_self _ hslash
  have h3 : y.data.map replaceSeps = y.data := by
    have hcongr : ∀ a ∈ y.data, replaceSeps a = id a :=
      fun a ha => replaceSeps_eq_self a (hchars a ha).1 (hchars a ha).2.1
    rw [List.map_congr_left hcongr, List.map_id]
  have h4 : y.data.map Char.toUpper = y.data := by
    have hcongr : ∀ a ∈ y.data, a.toUpper = id a := fun a ha => (hchars a ha).2.2
    rw [List.map_congr_left hcongr, List.map_id]
  unfold screenNameCore
  rw [h1, h2, h3, h4]

/-- Any nonempty, colon-free string of slash-free, hyphen-free,
uppercase-fixed characters is a fixpoint of screen-name derivation. -/
theorem derive_fixpoint (y : String) (hne : y.data ≠ [])
    (h : (y.data.contains ':') = false)
    (hchars : ∀ c ∈ y.data, c ≠ '/' ∧ c ≠ '-' ∧ c.toUpper = c) :
    routePathToScreenName y = y := by
  have hcore : screenNameCore y = y.data := screenNameCore_eq_self y hchars
  unfold routePathToScreenName
  rw [hcore, if_neg hne, h, if_neg Bool.false_ne_true]

/-- On a nonempty string of slash-free, hyphen-free, uppercase-fixed
characters that retains a colon, the derivation appends `_DETAIL`. -/
theorem derive_append_detail (y : String) (hne : y.data ≠ [])
    (h : (y.data.contains ':') = true)
    (hchars : ∀ c ∈ y.data, c ≠ '/' ∧ c ≠ '-' ∧ c.toUpper = c) :
    routePathToScreenName y = y ++ "_DETAIL" := by
  have hcore : screenNameCore y = y.data := screenNameCore_eq_self y hchars
  unfold routePathToScreenName
  rw [hcore, if_neg hne, h, if_pos rfl]

/-- C5 counterexample: a colon that is not part of a `/:word` dynamic
segment survives into the derived name, and a second derivation appends a
second `_DETAIL` suffix: the derivation is not idempotent on `":x"`. -/
theorem routePathToScreenName_not_idempotent :
    routePathToScreenName (routePathToScreenName ":x") ≠ routePathToScreenName ":x" := by
  simp [routePathToScreenName, screenNameCore, stripLeadingSlash, stripDynSegments, replaceSeps, isWordChar]

/-- C5 amended: screen-name derivation is idempotent exactly on the inputs
whose derived name contains no colon — a colon is removed only as part of a
`/:word` match run against the input after its leading slash has been
stripped, so e.g. `/users/:id` derives idempotently to `USERS_DETAIL`,
while `:x` and `/:id` (whose slash-stripped form `:id` offers no `/:` to
match) retain their colon; whenever the derived name retains a colon, the
second derivation is exactly the first with another `_DETAIL` suffix
appended, and so differs from it. -/
theorem routePathToScreenName_idem (p : String) :
    (((routePathToScreenName p).data.contains ':') = false →
      routePathToScreenName (routePathToScreenName p) = routePathToScreenName p) ∧
    (((routePathToScreenName p).data.contains ':') = true →
      routePathToScreenName (routePathToScreenName p)
          = routePathToScreenName p ++ "_DETAIL" ∧
        routePathToScreenName (routePathToScreenName p) ≠ routePathToScreenName p) := by
  constructor
  · intro h
    exact derive_fixpoint _ (routePath_output_ne_nil p) h (routePath_output_chars p)
  · intro h
    have happ := derive_append_detail _ (routePath_output_ne_nil p) h (routePath_output_chars p)
    refine ⟨happ, ?_⟩
    rw [happ]
    intro heq
    have hlen := congrArg String.length heq
    rw [String.length_append] at hlen
    have h7 : ("_DETAIL" : String).length = 7 := rfl
    omega

/-- Witness for the amended C5: a route path with a non-leading dynamic
segment derives idempotently, and a path with a bare leading colon gains a
second `_DETAIL` on re-derivation. -/
theorem routePathToScreenName_idem_witness :
    routePathToScreenName (routePathToScreenName "/users/:id")
        = routePathToScreenName "/users/:id" ∧
    routePathToScreenName (routePathToScreenName "/:id")
        = routePathToScreenName "/:id" ++ "_DETAIL" :=
  ⟨(routePathToScreenName_idem "/users/:id").1
      (by simp [routePathToScreenName, screenNameCore, stripLeadingSlash, stripDynSegments,
        replaceSeps, isWordChar]),
    ((routePathToScreenName_idem "/:id").2
      (by simp [routePathToScreenName, screenNameCore, stripLeadingSlash, stripDynSegments,
        replaceSeps, isWordChar])).1⟩

/-! ## Claim C8 -/

/-- C8: `loadQAState` never throws (it is a total function into `Option`)
and returns the parsed value exactly when that value is an object carrying a
boolean `isOpen` field and `testSessions`, `checklists` and `bugs` fields
that are each arrays; in every other case — absent blob, unparsable text or
any structural violation — it returns `null`.  `specValidShape` transcribes
the spec's structural check. -/
theorem loadQAState_spec (stored : Option (Option JsonVal)) (v : JsonVal) :
    loadQAState stored = some v ↔ stored = some (some v) ∧ specValidShape v = true := by
  constructor
  · intro h
    match stored with
    | none => exact absurd h (by simp [loadQAState])
    | some none => exact absurd h (by simp [loadQAState])
    | some (some parsed) =>
      match parsed with
      | JsonVal.null => exact absurd h (by simp [loadQAState])
      | JsonVal.bool b => exact absurd h (by simp [loadQAState, typeofIsObject])
      | JsonVal.num n => exact absurd h (by simp [loadQAState, typeofIsObject])
      | JsonVal.str t => exact absurd h (by simp [loadQAState, typeofIsObject])
      | JsonVal.arr xs =>
        exact absurd h (by simp [loadQAState, typeofIsObject, jsGetField, isBoolField])
      | JsonVal.obj fields =>
        by_cases hcond : (isBoolField (jsGetField (JsonVal.obj fields) "isOpen")
            && isArrayField (jsGetField (JsonVal.obj fields) "testSessions")
            && isArrayField (jsGetField (JsonVal.obj fields) "checklists")
            && isArrayField (jsGetField (JsonVal.obj fields) "bugs")) = true
        · have hload : loadQAState (some (some (JsonVal.obj fields)))
              = some (JsonVal.obj fields) := by
            simp [loadQAState, typeofIsObject, hcond]
          rw [hload, Option.some.injEq] at h
          subst h
          refine ⟨rfl, ?_⟩
          simpa [specValidShape, jsGetField] using hcond
        · have hload : loadQAState (some (some (JsonVal.obj fields))) = none := by
            simp [loadQAState, typeofIsObject, hcond]
          rw [hload] at h
          exact absurd h (by simp)
  · rintro ⟨rfl, hval⟩
    match v with
    | JsonVal.null => exact absurd hval (by simp [specValidShape])
    | JsonVal.bool b => exact absurd hval (by simp [specValidShape])
    | JsonVal.num n => exact absurd hval (by simp [specValidShape])
    | JsonVal.str t => exact absurd hval (by simp [specValidShape])
    | JsonVal.arr xs => exact absurd hval (by simp [specValidShape])
    | JsonVal.obj fields =>
      simp only [specValidShape] at hval
      simp [loadQAState, typeofIsObject, jsGetField, hval]

/-- Witness for C8: a well-shaped object round-trips, relating the load
result to the spec's structural check at a concrete blob. -/
theorem loadQAState_spec_witness :
    loadQAState (some (some (JsonVal.obj
        [("isOpen", JsonVal.bool false), ("testSessions", JsonVal.arr []),
         ("checklists", JsonVal.arr []), ("bugs", JsonVal.arr [])])))
      = some (JsonVal.obj
        [("isOpen", JsonVal.bool false), ("testSessions", JsonVal.arr []),
         ("checklists", JsonVal.arr []), ("bugs", JsonVal.arr [])])
    ↔ (some (some (JsonVal.obj
        [("isOpen", JsonVal.bool false), ("testSessions", JsonVal.arr []),
         ("checklists", JsonVal.arr []), ("bugs", JsonVal.arr [])]))
      = some (some (JsonVal.obj
        [("isOpen", JsonVal.bool false), ("testSessions", JsonVal.arr []),
         ("checklists", JsonVal.arr []), ("bugs", JsonVal.arr [])]))
      ∧ specValidShape (JsonVal.obj
        [("isOpen", JsonVal.bool false), ("testSessions", JsonVal.arr []),
         ("checklists", JsonVal.arr []), ("bugs", JsonVal.arr [])]) = true) :=
  loadQAState_spec _ _

/-! ## Claim C9 -/

/-- The sort of `clearOldSessions` is a permutation of its input. -/
theorem sortSessionsDesc_perm (l : List TestSession) : List.Perm (sortSessionsDesc l) l :=
  List.mergeSort_perm l _

/-- The sort of `clearOldSessions` is descending by `startedAt`. -/
theorem sortSessionsDesc_sorted (l : List TestSession) :
    List.Pairwise (fun a b : TestSession => b.startedAt ≤ a.startedAt) (sortSessionsDesc l) := by
  have hs : List.Pairwise
      (fun a b : TestSession => (decide (b.startedAt ≤ a.startedAt)) = true)
      (l.mergeSort fun a b : TestSession => decide (b.startedAt ≤ a.startedAt)) := by
    apply List.sorted_mergeSort
    · intro a b c hab hbc
      simp only [decide_eq_true_eq] at hab hbc ⊢
      omega
    · intro a b
      simp only [Bool.or_eq_true, decide_eq_true_eq]
      omega
  have hs2 : List.Pairwise
      (fun a b : TestSession => (decide (b.startedAt ≤ a.startedAt)) = true)
      (sortSessionsDesc l) := hs
  exact hs2.imp fun h => by simpa using h

/-- C9: on a quota-exceeded save, the state written on retry keeps `isOpen`,
`currentSession`, `checklists` and `bugs` unchanged, and its `testSessions`
are the (at most) 10 entries with the greatest `startedAt` values, in
descending `startedAt` order: the written sessions are a sub-permutation of
the original ones whose complement only holds sessions that started no
later, and a state with 10 or fewer sessions keeps its whole session set. -/
theorem saveQAState_quota_spec (s : QAState) :
    (saveQAState s true).isOpen = s.isOpen ∧
    (saveQAState s true).currentSession = s.currentSession ∧
    (saveQAState s true).checklists = s.checklists ∧
    (saveQAState s true).bugs = s.bugs ∧
    (saveQAState s true).testSessions.length = min 10 s.testSessions.length ∧
    List.Pairwise (fun a b : TestSession => b.startedAt ≤ a.startedAt)
      (saveQAState s true).testSessions ∧
    (∃ rest, List.Perm s.testSessions ((saveQAState s true).testSessions ++ rest) ∧
      ∀ x ∈ (saveQAState s true).testSessions, ∀ y ∈ rest, y.startedAt ≤ x.startedAt) ∧
    (s.testSessions.length ≤ 10 →
      List.Perm (saveQAState s true).testSessions s.testSessions) := by
  have hws : (saveQAState s true).testSessions = (sortSessionsDesc s.testSessions).take 10 := rfl
  have hperm : List.Perm (sortSessionsDesc s.testSessions) s.testSessions := sortSessionsDesc_perm _
  have hsorted := sortSessionsDesc_sorted s.testSessions
  refine ⟨rfl, rfl, rfl, rfl, ?_, ?_, ?_, ?_⟩
  · rw [hws, List.length_take, hperm.length_eq]
  · rw [hws]
    exact List.Pairwise.sublist (List.take_sublist 10 _) hsorted
  · refine ⟨(sortSessionsDesc s.testSessions).drop 10, ?_, ?_⟩
    · rw [hws, List.take_append_drop]
      exact hperm.symm
    · rw [hws]
      have hp := hsorted
      rw [← List.take_append_drop 10 (sortSessionsDesc s.testSessions)] at hp
      exact (List.pairwise_append.mp hp).2.2
  · intro hlen
    rw [hws, List.take_of_length_le]
    · exact hperm
    · rw [hperm.length_eq]
      exact hlen

/-- Witness for C9 at a concrete three-session state: its session count is
within the limit, so the written sessions are a permutation of the stored
ones. -/
theorem saveQAState_quota_spec_witness :
    (saveQAState
        { DEFAULT_STATE with
          testSessions := [mkSession "s1" 1 0, mkSession "s3" 3 0, mkSession "s2" 2 0] }
        true).isOpen = false ∧
    List.Perm
      (saveQAState
        { DEFAULT_STATE with
          testSessions := [mkSession "s1" 1 0, mkSession "s3" 3 0, mkSession "s2" 2 0] }
        true).testSessions
      [mkSession "s1" 1 0, mkSession "s3" 3 0, mkSession "s2" 2 0] := by
  have h := saveQAState_quota_spec
    { DEFAULT_STATE with
      testSessions := [mkSession "s1" 1 0, mkSession "s3" 3 0, mkSession "s2" 2 0] }
  exact ⟨h.1.trans (by decide), h.2.2.2.2.2.2.2 (by decide)⟩

/-! ## Claim C10 -/

/-- C10: at provider initialization a loaded state is adopted only when its
checklist collection is non-empty — then its bugs, sessions and current
session are kept and `isOpen` is forced to `false` (whether or not the
fingerprint triggers a merge) — and a loaded state with empty checklists is
discarded entirely in favour of the default state seeded with the supplied
checklists (as is an absent load). -/
theorem initQAState_spec (loaded : Option QAState) (fp : Option String)
    (defaults : List TestChecklist) :
    (∀ l, loaded = some l → l.checklists ≠ [] →
      (initQAState loaded fp defaults).isOpen = false ∧
      (initQAState loaded fp defaults).bugs = l.bugs ∧
      (initQAState loaded fp defaults).testSessions = l.testSessions ∧
      (initQAState loaded fp defaults).currentSession = l.currentSession) ∧
    (∀ l, loaded = some l → l.checklists = [] →
      initQAState loaded fp defaults = { DEFAULT_STATE with checklists := defaults }) ∧
    (loaded = none →
      initQAState loaded fp defaults = { DEFAULT_STATE with checklists := defaults }) := by
  refine ⟨?_, ?_, ?_⟩
  · rintro l rfl hne
    have hlen : l.checklists.length > 0 := List.length_pos.mpr hne
    simp only [initQAState]
    rw [if_pos hlen]
    by_cases hfp : fp ≠ some (generateChecklistFingerprint defaults)
    · rw [if_pos hfp]
      exact ⟨rfl, rfl, rfl, rfl⟩
    · rw [if_neg hfp]
      exact ⟨rfl, rfl, rfl, rfl⟩
  · rintro l rfl hnil
    simp only [initQAState]
    rw [if_neg]
    simp [hnil]
  · rintro rfl
    rfl

/-- Witness for C10: an adopted non-empty load keeps its data with the panel
closed, and an empty-checklist load falls back to the seeded default. -/
theorem initQAState_spec_witness :
    (∀ l, (some { DEFAULT_STATE with
          isOpen := true
          bugs := [sampleBug "b" BugStatus.open_ none]
          checklists := [{ screen := "S", items := [] }] } : Option QAState) = some l →
        l.checklists ≠ [] →
      (initQAState (some { DEFAULT_STATE with
          isOpen := true
          bugs := [sampleBug "b" BugStatus.open_ none]
          checklists := [{ screen := "S", items := [] }] }) none []).isOpen = false ∧
      (initQAState (some { DEFAULT_STATE with
          isOpen := true
          bugs := [sampleBug "b" BugStatus.open_ none]
          checklists := [{ screen := "S", items := [] }] }) none []).bugs = l.bugs ∧
      (initQAState (some { DEFAULT_STATE with
          isOpen := true
          bugs := [sampleBug "b" BugStatus.open_ none]
          checklists := [{ screen := "S", items := [] }] }) none []).testSessions
        = l.testSessions ∧
      (initQAState (some { DEFAULT_STATE with
          isOpen := true
          bugs := [sampleBug "b" BugStatus.open_ none]
          checklists := [{ screen := "S", items := [] }] }) none []).currentSession
        = l.currentSession) ∧
    (∀ l, (some { DEFAULT_STATE with
          isOpen := true
          bugs := [sampleBug "b" BugStatus.open_ none]
          checklists := [{ screen := "S", items := [] }] } : Option QAState) = some l →
        l.checklists = [] →
      initQAState (some { DEFAULT_STATE with
          isOpen := true
          bugs := [sampleBug "b" BugStatus.open_ none]
          checklists := [{ screen := "S", items := [] }] }) none []
        = { DEFAULT_STATE with checklists := [] }) ∧
    ((some { DEFAULT_STATE with
          isOpen := true
          bugs := [sampleBug "b" BugStatus.open_ none]
          checklists := [{ screen := "S", items := [] }] } : Option QAState) = none →
      initQAState (some { DEFAULT_STATE with
          isOpen := true
          bugs := [sampleBug "b" BugStatus.open_ none]
          checklists := [{ screen := "S", items := [] }] }) none []
        = { DEFAULT_STATE with checklists := [] }) :=
  initQAState_spec
    (some { DEFAULT_STATE with
      isOpen := true
      bugs := [sampleBug "b" BugStatus.open_ none]
      checklists := [{ screen := "S", items := [] }] }) none []

/-! ## Claim C1 -/

/-- The saved-results map misses an id exactly when no saved item with a
truthy history carries it. -/
theorem lookupSaved_eq_none_iff (saved : List TestChecklist) (id : String) :
    lookupSaved (savedResultsOf saved) id = none ↔
      ∀ sIt ∈ allItems saved, hasSavedHistory sIt = true → sIt.id ≠ id := by
  unfold lookupSaved
  rw [List.lookup_eq_none_iff]
  constructor
  · intro h sIt hmem hhist heq
    have hp : (sIt.id,
        ({ status := sIt.status, notes := sIt.notes, testedAt := sIt.testedAt } : SavedResult))
        ∈ (savedResultsOf saved).reverse := by
      rw [List.mem_reverse]
      unfold savedResultsOf
      rw [List.mem_filterMap]
      exact ⟨sIt, hmem, by rw [if_pos hhist]⟩
    have h2 := h _ hp
    simp only [bne_iff_ne, ne_eq] at h2
    exact h2 heq.symm
  · intro h p hp
    rw [List.mem_reverse] at hp
    unfold savedResultsOf at hp
    rw [List.mem_filterMap] at hp
    obtain ⟨it, hmem, hf⟩ := hp
    by_cases hh : hasSavedHistory it = true
    · rw [if_pos hh, Option.some.injEq] at hf
      subst hf
      simp only [bne_iff_ne, ne_eq]
      exact fun he => h it hmem hh he.symm
    · rw [if_neg hh] at hf
      exact absurd hf (by simp)

/-- A hit in the saved-results map comes from a saved item with a truthy
history carrying that id, whose three result fields make up the record. -/
theorem lookupSaved_eq_some_ex (saved : List TestChecklist) (id : String) (r : SavedResult)
    (h : lookupSaved (savedResultsOf saved) id = some r) :
    ∃ sIt ∈ allItems saved, hasSavedHistory sIt = true ∧ sIt.id = id ∧
      r = { status := sIt.status, notes := sIt.notes, testedAt := sIt.testedAt } := by
  unfold lookupSaved at h
  rw [List.lookup_eq_some_iff] at h
  obtain ⟨l₁, l₂, heq, _⟩ := h
  have hmem : (id, r) ∈ (savedResultsOf saved).reverse := by
    rw [heq]
    exact List.mem_append_right _ (List.mem_cons_self _ _)
  rw [List.mem_reverse] at hmem
  unfold savedResultsOf at hmem
  rw [List.mem_filterMap] at hmem
  obtain ⟨it, hmem2, hf⟩ := hmem
  by_cases hh : hasSavedHistory it = true
  · rw [if_pos hh, Option.some.injEq] at hf
    rw [Prod.mk.injEq] at hf
    exact ⟨it, hmem2, hh, hf.1, hf.2.symm⟩
  · rw [if_neg hh] at hf
    exact absurd hf (by simp)

/-- C1 counterexample: a saved item whose only history is the timestamp `0`
(with default status and no notes) does carry a `testedAt` timestamp, yet
its fields are not copied onto the new item — JavaScript truthiness treats
the number `0` as absent. -/
theorem mergeChecklists_testedAt_zero_counterexample :
    (mergeChecklists
        [{ screen := "S", items := [sampleItem "a" TestStatus.not_started none (some 0)] }]
        [{ screen := "S", items := [sampleItem "a" TestStatus.not_started none none] }])
      = [{ screen := "S", items := [sampleItem "a" TestStatus.not_started none none] }]
    ∧ (sampleItem "a" TestStatus.not_started none (some 0)).testedAt = some 0
    ∧ (sampleItem "a" TestStatus.not_started none none).testedAt ≠ some 0 := by
  decide

/-- C1 amended: `mergeChecklists` returns the new collection — same screens,
same item ids in the same positions, so saved-only ids are dropped — where
each new item whose id occurs among the saved items with a non-default
status, non-empty notes, or a *nonzero* `testedAt` timestamp gets such a
saved occurrence's status, notes and `testedAt` copied onto it (all other
fields kept), and every item without such a saved occurrence is returned
exactly as supplied. -/
theorem mergeChecklists_spec (saved new : List TestChecklist) :
    (mergeChecklists saved new).length = new.length ∧
    ∀ p ∈ (mergeChecklists saved new).zip new,
      p.1.screen = p.2.screen ∧
      p.1.items.length = p.2.items.length ∧
      ∀ q ∈ p.1.items.zip p.2.items,
        q.1.id = q.2.id ∧ q.1.screen = q.2.screen ∧ q.1.category = q.2.category ∧
        q.1.description = q.2.description ∧
        ((∀ sIt ∈ allItems saved, hasSavedHistory sIt = true → sIt.id ≠ q.2.id) →
          q.1 = q.2) ∧
        ((∃ sIt ∈ allItems saved, hasSavedHistory sIt = true ∧ sIt.id = q.2.id) →
          ∃ sIt ∈ allItems saved, hasSavedHistory sIt = true ∧ sIt.id = q.2.id ∧
            q.1 = { q.2 with
                    status := sIt.status
                    notes := sIt.notes
                    testedAt := sIt.testedAt }) := by
  refine ⟨List.length_map _ _, ?_⟩
  intro p hp
  have hfp := mem_zip_map_left (fun checklist : TestChecklist =>
    { checklist with
      items := checklist.items.map fun item =>
        match lookupSaved (savedResultsOf saved) item.id with
        | some sv => applySaved item sv
        | none => item }) new p hp
  refine ⟨by rw [hfp], by rw [hfp]; exact List.length_map _ _, ?_⟩
  intro q hq
  rw [hfp] at hq
  have hfq := mem_zip_map_left (fun item : TestItem =>
    match lookupSaved (savedResultsOf saved) item.id with
    | some sv => applySaved item sv
    | none => item) p.2.items q hq
  cases hls : lookupSaved (savedResultsOf saved) q.2.id with
  | none =>
    have hqq : q.1 = q.2 := by
      rw [hfq]
      simp only [hls]
    refine ⟨by rw [hqq], by rw [hqq], by rw [hqq], by rw [hqq], fun _ => hqq, ?_⟩
    intro hex
    obtain ⟨sIt, hmem, hh, hid⟩ := hex
    exact absurd hid ((lookupSaved_eq_none_iff saved _).mp hls sIt hmem hh)
  | some r =>
    obtain ⟨sIt, hmem, hh, hid, rfl⟩ := lookupSaved_eq_some_ex saved _ r hls
    have hqq : q.1 = { q.2 with
        status := sIt.status
        notes := sIt.notes
        testedAt := sIt.testedAt } := by
      rw [hfq]
      simp only [hls]
      rfl
    refine ⟨by rw [hqq], by rw [hqq], by rw [hqq], by rw [hqq], ?_, fun _ => ⟨sIt, hmem, hh, hid, hqq⟩⟩
    intro hnone
    exact absurd hid (hnone sIt hmem hh)

/-- Witness for the amended C1: one saved tested item, a fresh collection
with the same id plus a brand-new id. -/
theorem mergeChecklists_spec_witness :
    (mergeChecklists c1SavedSample c1NewSample).length = c1NewSample.length ∧
    ∀ p ∈ (mergeChecklists c1SavedSample c1NewSample).zip c1NewSample,
      p.1.screen = p.2.screen ∧
      p.1.items.length = p.2.items.length ∧
      ∀ q ∈ p.1.items.zip p.2.items,
        q.1.id = q.2.id ∧ q.1.screen = q.2.screen ∧ q.1.category = q.2.category ∧
        q.1.description = q.2.description ∧
        ((∀ sIt ∈ allItems c1SavedSample, hasSavedHistory sIt = true → sIt.id ≠ q.2.id) →
          q.1 = q.2) ∧
        ((∃ sIt ∈ allItems c1SavedSample, hasSavedHistory sIt = true ∧ sIt.id = q.2.id) →
          ∃ sIt ∈ allItems c1SavedSample, hasSavedHistory sIt = true ∧ sIt.id = q.2.id ∧
            q.1 = { q.2 with
                    status := sIt.status
                    notes := sIt.notes
                    testedAt := sIt.testedAt }) :=
  mergeChecklists_spec c1SavedSample c1NewSample

/-- Witness for the amended C4 at concrete inputs. -/
theorem updateBugStatus_spec_witness :
    (updateBugStatus 10 "b" BugStatus.fixed
        { DEFAULT_STATE with bugs := [sampleBug "b" BugStatus.open_ none] }).isOpen = false ∧
    (updateBugStatus 10 "b" BugStatus.fixed
        { DEFAULT_STATE with bugs := [sampleBug "b" BugStatus.open_ none] }).currentSession = none ∧
    (updateBugStatus 10 "b" BugStatus.fixed
        { DEFAULT_STATE with bugs := [sampleBug "b" BugStatus.open_ none] }).testSessions = [] ∧
    (updateBugStatus 10 "b" BugStatus.fixed
        { DEFAULT_STATE with bugs := [sampleBug "b" BugStatus.open_ none] }).checklists = [] ∧
    (updateBugStatus 10 "b" BugStatus.fixed
        { DEFAULT_STATE with bugs := [sampleBug "b" BugStatus.open_ none] }).bugs.length
      = ({ DEFAULT_STATE with bugs := [sampleBug "b" BugStatus.open_ none] } : QAState).bugs.length ∧
    ∀ p ∈ ((updateBugStatus 10 "b" BugStatus.fixed
        { DEFAULT_STATE with bugs := [sampleBug "b" BugStatus.open_ none] }).bugs).zip
          ({ DEFAULT_STATE with bugs := [sampleBug "b" BugStatus.open_ none] } : QAState).bugs,
      (p.2.id = "b" →
        p.1.status = BugStatus.fixed ∧
        (BugStatus.fixed = BugStatus.fixed → p.1.fixedAt = some 10) ∧
        (BugStatus.fixed ≠ BugStatus.fixed → p.1.fixedAt = p.2.fixedAt) ∧
        p.1.id = p.2.id ∧ p.1.title = p.2.title ∧ p.1.description = p.2.description ∧
        p.1.severity = p.2.severity ∧ p.1.screen = p.2.screen ∧
        p.1.reportedAt = p.2.reportedAt ∧ p.1.reportedBy = p.2.reportedBy) ∧
      (p.2.id ≠ "b" → p.1 = p.2) :=
  updateBugStatus_spec 10 "b" BugStatus.fixed
    { DEFAULT_STATE with bugs := [sampleBug "b" BugStatus.open_ none] }

end POLI
